import Mathlib

/-!
# Verification of basic-kvm device wrappers

Shallow embedding of the device-wrapper logic of the `basic-kvm`
repository (`src/basic_kvm/video.py`, `serial.py`, `main.py`, `ui.py`).

External native libraries (OpenCV's `cv2.VideoCapture`, pyserial, the
v4l2 ioctl layer, Pillow/Tk) are modelled as abstract oracles passed in
as parameters: a `CaptureBackend` supplies the behaviour of a native
capture handle, a `dev` function supplies `cv2.VideoCapture(source)`
construction plus `isOpened()`, an `Option κ` supplies the outcome of a
`serial.Serial(...)` constructor call, and so on.  Python exceptions
crossing a wrapper boundary are modelled with `Except String`; a
wrapper operation modelled as a total function is one that the Python
code guarantees cannot raise (every native call inside it is wrapped in
`try/except`).  Logging is modelled by returning the list of log
records emitted by the call.
-/

/- ## Video capture wrapper (`basic_kvm/video.py`) -/

/--
Abstract model of a native `cv2.VideoCapture` handle.  `σ` is the
opaque internal state of the handle.  `setW`/`setH` model
`cap.set(cv2.CAP_PROP_FRAME_WIDTH, w)` / `cap.set(CAP_PROP_FRAME_HEIGHT, h)`
(the requested dimensions are small integers, exactly representable in
the float the code passes, so they are modelled as `Nat`).  `read`
models `cap.read()`: it may change the handle state and returns the
frame's `(width, height)` when `ret` is true and a frame is present,
`none` otherwise (frames are abstracted to their dimensions, the only
attribute the wrapper inspects).
-/
structure CaptureBackend (σ : Type) where
  setW : σ → Nat → σ
  setH : σ → Nat → σ
  read : σ → σ × Option (Nat × Nat)

/-- The fixed candidate resolution list of `VideoSource.open`
(video.py lines 47-56), largest to smallest. -/
def candidates : List (Nat × Nat) :=
  [(3840, 2160), (2560, 1440), (1920, 1080), (1600, 900),
   (1280, 720), (1024, 768), (800, 600), (640, 480)]

/--
The inner settle loop of `VideoSource.open` (video.py lines 66-74):
up to `fuel` (in the code: 3) consecutive `cap.read()` calls; a read
that fails (`not ret or frame is None`) or returns a frame whose
dimensions differ from the requested `(w, h)` consumes an attempt; the
loop stops at the first frame whose width is `w` and height is `h`.
Returns the final handle state, whether a matching frame was seen, and
the number of reads actually performed.
-/
def tryReads (b : CaptureBackend σ) (w h : Nat) : Nat → σ → σ × Bool × Nat
  | 0, s => (s, false, 0)
  | fuel + 1, s =>
    match b.read s with
    | (s1, none) =>
      let r := tryReads b w h fuel s1
      (r.1, r.2.1, r.2.2 + 1)
    | (s1, some (fw, fh)) =>
      if fw = w ∧ fh = h then (s1, true, 1)
      else
        let r := tryReads b w h fuel s1
        (r.1, r.2.1, r.2.2 + 1)

/--
The probing loop of `VideoSource.open` (video.py lines 58-77): for each
candidate in order, request its width and height, attempt up to 3
reads, and stop at the first candidate confirmed by a matching frame.
Returns the final handle state and the accepted candidate, if any.
-/
def probeLoop (b : CaptureBackend σ) : List (Nat × Nat) → σ → σ × Option (Nat × Nat)
  | [], s => (s, none)
  | (w, hgt) :: rest, s =>
    let s1 := b.setH (b.setW s w) hgt
    let r := tryReads b w hgt 3 s1
    if r.2.1 then (r.1, some (w, hgt)) else probeLoop b rest r.1

/--
`VideoSource` (video.py lines 20-157).  `ι` is the type of the
`source` value (the Python code accepts `int | str`); `cap` is
`self._cap`: `none` exactly when `self._cap is None`.
-/
structure VideoSource (ι σ : Type) where
  source : ι
  cap : Option σ

/-- `VideoSource.__init__`: stores the source value, `self._cap = None`. -/
def VideoSource.init (src : ι) : VideoSource ι σ :=
  { source := src, cap := none }

/--
Body of `VideoSource.open` after the cv2-presence check (video.py
lines 39-82).  `dev` models `cv2.VideoCapture(source)` construction:
for each source value it yields the result of `isOpened()` and the
initial native handle state.  Note that `self._cap` is assigned the
handle *before* `isOpened()` is consulted, so after a failed open
`self._cap` is a (dead) handle, not `None`.  When the device opened,
the probe loop runs (its result is returned as a ghost observation:
the accepted resolution, if any) and `open` returns `True` whether or
not any candidate was confirmed; probing failures are swallowed by the
surrounding `try/except`.
-/
def VideoSource.openRaw (b : CaptureBackend σ) (dev : ι → Bool × σ)
    (vs : VideoSource ι σ) : VideoSource ι σ × Bool × Option (Nat × Nat) :=
  let (opened, s0) := dev vs.source
  if opened then
    let r := probeLoop b candidates s0
    ({ vs with cap := some r.1 }, true, r.2)
  else
    ({ vs with cap := some s0 }, false, none)

/--
`VideoSource.open` (video.py lines 35-82).  `cv2Present` models the
module-level optional import: if `cv2 is None` the call raises
`ImportError`; otherwise it cannot raise and returns a boolean.
-/
def VideoSource.open (cv2Present : Bool) (b : CaptureBackend σ) (dev : ι → Bool × σ)
    (vs : VideoSource ι σ) : Except String (VideoSource ι σ × Bool × Option (Nat × Nat)) :=
  if cv2Present then Except.ok (VideoSource.openRaw b dev vs)
  else Except.error "opencv-python (cv2) is required for video capture"

/--
`VideoSource.read` (video.py lines 142-149): raises `RuntimeError`
exactly when `self._cap is None`; otherwise calls `self._cap.read()`
(whether or not that handle ever opened) and returns the frame, or
`none` when `ret` is false.
-/
def VideoSource.read (b : CaptureBackend σ) (vs : VideoSource ι σ) :
    Except String (VideoSource ι σ × Option (Nat × Nat)) :=
  match vs.cap with
  | none => Except.error "Video source is not opened"
  | some s =>
    let r := b.read s
    Except.ok ({ vs with cap := some r.1 }, r.2)

/--
`VideoSource.release` (video.py lines 151-157): if `self._cap` is not
`None`, call the native `release()` (any exception swallowed) and set
`self._cap = None`; if already `None`, do nothing.  In both cases the
resulting Python-visible state has `_cap = None`, and the method never
raises, so it is modelled as a total function.
-/
def VideoSource.release (vs : VideoSource ι σ) : VideoSource ι σ :=
  { vs with cap := none }

/-- A capture backend with trivial state whose reads never return a
frame (e.g. a `cv2.VideoCapture` that never opened). -/
def trivialBackend : CaptureBackend Unit :=
  { setW := fun s _ => s, setH := fun s _ => s, read := fun s => (s, none) }

/--
A deterministic functional backend: the handle state is the currently
requested `(width, height)`; `read` always succeeds and returns the
dimensions `f` assigns to the current request.  This models a driver
whose delivered frame size is a function of the requested size.
-/
def funBackend (f : Nat × Nat → Nat × Nat) : CaptureBackend (Nat × Nat) :=
  { setW := fun s w => (w, s.2),
    setH := fun s hgt => (s.1, hgt),
    read := fun s => (s, some (f s)) }

/-- A fake driver that confirms exactly the 1280x720 request and
otherwise delivers a frame of a different size. -/
def fFake : Nat × Nat → Nat × Nat :=
  fun c => if c = (1280, 720) then c else (c.1 + 1, c.2)

/- ## Serial sender (`basic_kvm/serial.py`; an identical copy lives in
`basic_kvm/main.py` lines 80-123) -/

/-- A log record: `info` for `logger.info`, `exc` for
`logger.exception`.  Only the fixed text and the interpolated payload
relevant to the claims are modelled. -/
inductive LogEntry where
  | info (msg : String)
  | exc (msg : String)
deriving DecidableEq

/--
`SerialSender` (serial.py lines 7-50).  `κ` is the opaque type of a
native pyserial connection.  `serialAvail` records whether the
`import serial` in `__init__` succeeded (`self._serial is not None`);
`conn` is `self._conn`.
-/
structure SerialSender (κ : Type) where
  device : String
  baud : Nat
  serialAvail : Bool
  conn : Option κ

/-- `SerialSender.__init__`: stores device and baud, probes for the
pyserial backend, `self._conn = None`. -/
def SerialSender.init (device : String) (baud : Nat) (serialAvail : Bool) :
    SerialSender κ :=
  { device := device, baud := baud, serialAvail := serialAvail, conn := none }

/--
`SerialSender.open` (serial.py lines 26-33).  `connect` models the
outcome of `serial.Serial(device, baud, timeout=1)`: `some c` when the
constructor returns a connection, `none` when it raises.  With no
backend the method logs and returns at once; on constructor failure
the exception is caught, logged, and `self._conn` is left unchanged.
Every path returns normally, so the model is total (never raises).
-/
def SerialSender.open (connect : Option κ) (s : SerialSender κ) :
    SerialSender κ × List LogEntry :=
  if s.serialAvail = false then
    (s, [LogEntry.info "pyserial not available; SerialSender will log messages"])
  else
    match connect with
    | some c => ({ s with conn := some c }, [])
    | none => (s, [LogEntry.exc ("Failed to open serial device " ++ s.device)])

/--
`SerialSender.send_text` (serial.py lines 35-43).  `writeOk` models
whether the native `self._conn.write(...)` call succeeds; the third
component of the result is the text whose UTF-8 encoding was written
to the wire (`none` when nothing was transmitted).  A write failure is
caught and logged; with `self._conn is None` the text is logged in dry
mode.  No path raises, so the model is total.
-/
def SerialSender.send_text (s : SerialSender κ) (text : String) (writeOk : Bool) :
    SerialSender κ × List LogEntry × Option String :=
  match s.conn with
  | some _ =>
    if writeOk then (s, [], some text)
    else (s, [LogEntry.exc "Failed to write to serial device"], none)
  | none => (s, [LogEntry.info ("SerialSender (dry): " ++ text)], none)

/--
`SerialSender.close` (serial.py lines 45-50): if `self._conn` is not
`None`, call the native `close()` (exceptions swallowed).  The method
does NOT assign `self._conn = None`, so the Python-visible state is
returned unchanged; the boolean records whether the native close was
invoked.  Never raises, so total.
-/
def SerialSender.close (s : SerialSender κ) : SerialSender κ × Bool :=
  match s.conn with
  | some _ => (s, true)
  | none => (s, false)

/-- A sender that has been opened successfully (pyserial available,
constructor returned a connection). -/
def senderAfterOpen : SerialSender Unit :=
  (SerialSender.open (some ()) (SerialSender.init "/dev/ttyUSB0" 9600 true)).1

/- ## Device enumerator (`basic_kvm/main.py` lines 25-71) -/

/-- `V4L2_CAP_VIDEO_CAPTURE` (0x00000001), the capability bit tested
by the enumerator. -/
def V4L2_CAP_VIDEO_CAPTURE : Nat := 1

/--
Outcome of probing one device path: `openFail` when
`os.open(dev, O_RDONLY|O_NONBLOCK)` raises, `ioctlFail` when the
`VIDIOC_QUERYCAP` ioctl raises, and `ok caps card` when the query
succeeds, with the reported capability bits and the decoded card name
(empty string when the driver reports none).
-/
inductive QueryResult where
  | openFail
  | ioctlFail
  | ok (caps : Nat) (card : String)

/--
The per-path body of the enumerator loop (main.py lines 44-69):
`none` means the path is skipped (`continue` on open failure, on ioctl
failure, or when the capability bits lack `V4L2_CAP_VIDEO_CAPTURE`);
otherwise the `(display_name, path)` pair that is appended.
-/
def deviceEntry (query : String → QueryResult) (dev : String) :
    Option (String × String) :=
  match query dev with
  | QueryResult.openFail => none
  | QueryResult.ioctlFail => none
  | QueryResult.ok caps card =>
    if caps &&& V4L2_CAP_VIDEO_CAPTURE = 0 then none
    else if card = "" then some (dev, dev)
    else some (card ++ " (" ++ dev ++ ")", dev)

/--
`enumerate_video_devices` (main.py lines 25-71).  `v4l2Present` models
whether `import fcntl/os/v4l2` succeeds (on failure the function
raises `ImportError`); `globResult` is the raw result of
`glob.glob("/dev/video*")`, which the code sorts; `query` models the
open + `VIDIOC_QUERYCAP` probe of each path.  The function returns the
kept `(display_name, path)` pairs in sorted path order — there is no
fallback of any kind, so an empty glob or total filtering yields `[]`.
-/
def enumerate_video_devices (v4l2Present : Bool) (globResult : List String)
    (query : String → QueryResult) : Except String (List (String × String)) :=
  if v4l2Present then
    Except.ok (((globResult.mergeSort (fun a b => decide (a ≤ b))).filterMap
      (deviceEntry query)))
  else
    Except.error "v4l2 Python bindings are required for device enumeration"

/- ## Display widget (`basic_kvm/ui.py` lines 11-90) -/

/--
The widget state relevant to the claims: the owned `VideoSource` and
the `self._running` polling flag.  The Tk label/photo plumbing carries
no state the claims mention.
-/
structure VideoWidget (ι σ : Type) where
  source : VideoSource ι σ
  running : Bool

/--
`VideoWidget.set_source` (ui.py lines 27-51): remember whether the
widget was running and stop polling; release the old source (any
exception swallowed); adopt the new source; then, only if it was
running, call `self.source.open()` — if that call raises, return with
the widget stopped, otherwise (the boolean result of `open()` is NOT
examined) set `self._running = True` and resume polling.  The second
component of the result is the old source after its release, returned
as a ghost observation of the handle it held.
-/
def VideoWidget.set_source (cv2Present : Bool) (b : CaptureBackend σ)
    (dev : ι → Bool × σ) (w : VideoWidget ι σ) (ns : VideoSource ι σ) :
    VideoWidget ι σ × VideoSource ι σ :=
  let old := w.source.release
  if w.running then
    match VideoSource.open cv2Present b dev ns with
    | Except.error _ => ({ source := ns, running := false }, old)
    | Except.ok r => ({ source := r.1, running := true }, old)
  else
    ({ source := ns, running := false }, old)

/-- A widget that is currently running (polling). -/
def widgetRunning : VideoWidget Int Unit :=
  { source := VideoSource.init (0 : Int), running := true }

/- ## Frame-to-image converter (`basic_kvm/video.py` lines 160-176) -/

/--
`bgr_to_photoimage` (video.py lines 160-176).  A frame is a pixel
buffer of shape (height, width, channels), modelled as nested lists of
channel values.  The function raises `ImportError` when Pillow is
absent and `RuntimeError` when NumPy is absent; otherwise it computes
`rgb = frame[..., ::-1]` — a reversal of the last (channel) axis, i.e.
`map (map reverse)` — and hands the buffer to
`PIL.Image.fromarray` / `ImageTk.PhotoImage`, which wrap it without
changing pixels (modelled as the identity on the buffer).
-/
def bgr_to_photoimage (pillowPresent npPresent : Bool)
    (frame : List (List (List Nat))) : Except String (List (List (List Nat))) :=
  if pillowPresent = false then
    Except.error "Pillow is required to convert frames to PhotoImage"
  else if npPresent = false then
    Except.error "NumPy is required for frame conversion"
  else
    Except.ok (frame.map (fun row => row.map List.reverse))

/-- Discriminator for `Except`: did the call raise? -/
def exceptIsError : Except String α → Bool
  | Except.error _ => true
  | Except.ok _ => false

/- ## Helper lemmas -/

/-- The settle loop performs at most `fuel` reads. -/
theorem tryReads_count_le (b : CaptureBackend σ) (w hgt : Nat) (fuel : Nat) (s : σ) :
    (tryReads b w hgt fuel s).2.2 ≤ fuel := by
  induction fuel generalizing s with
  | zero => simp [tryReads]
  | succ n ih =>
    unfold tryReads
    rcases hr : b.read s with ⟨s1, fr⟩
    rcases fr with _ | ⟨fw, fh⟩
    · simpa using Nat.succ_le_succ (ih s1)
    · by_cases hm : fw = w ∧ fh = hgt
      · simp [hm]
      · simpa [hm] using Nat.succ_le_succ (ih s1)

/-- On a functional backend a confirming driver makes the settle loop
stop at its first read. -/
theorem tryReads_funBackend_pos (f : Nat × Nat → Nat × Nat) (w hgt fuel : Nat)
    (s : Nat × Nat) (fw fh : Nat) (hfs : f s = (fw, fh))
    (hm : fw = w ∧ fh = hgt) :
    tryReads (funBackend f) w hgt (fuel + 1) s = (s, true, 1) := by
  have hread : (funBackend f).read s = (s, some (fw, fh)) := by
    simp [funBackend, hfs]
  simp [tryReads, hread, hm]

/-- On a functional backend a non-confirming driver makes the settle
loop exhaust its fuel without success. -/
theorem tryReads_funBackend_neg (f : Nat × Nat → Nat × Nat) (w hgt fuel : Nat)
    (s : Nat × Nat) (fw fh : Nat) (hfs : f s = (fw, fh))
    (hm : ¬(fw = w ∧ fh = hgt)) :
    tryReads (funBackend f) w hgt fuel s = (s, false, fuel) := by
  have hread : (funBackend f).read s = (s, some (fw, fh)) := by
    simp [funBackend, hfs]
  induction fuel with
  | zero => simp [tryReads]
  | succ n ih => simp [tryReads, hread, hm, ih]

/-- The settle loop at the concrete fuel 3 used by the code. -/
theorem tryReads3_funBackend (f : Nat × Nat → Nat × Nat) (w hgt : Nat)
    (s : Nat × Nat) (fw fh : Nat) (hfs : f s = (fw, fh)) :
    tryReads (funBackend f) w hgt 3 s
      = if fw = w ∧ fh = hgt then (s, true, 1) else (s, false, 3) := by
  by_cases hm : fw = w ∧ fh = hgt
  · rw [if_pos hm]
    exact tryReads_funBackend_pos f w hgt 2 s fw fh hfs hm
  · rw [if_neg hm]
    exact tryReads_funBackend_neg f w hgt 3 s fw fh hfs hm

/-- On a functional backend the probe loop accepts exactly the first
candidate of the list that the driver confirms. -/
theorem probeLoop_funBackend (f : Nat × Nat → Nat × Nat)
    (cs : List (Nat × Nat)) (s : Nat × Nat) :
    (probeLoop (funBackend f) cs s).2 = cs.find? (fun c => decide (f c = c)) := by
  induction cs generalizing s with
  | nil => rfl
  | cons c rest ih =>
    rcases c with ⟨w, hgt⟩
    rcases hfc : f (w, hgt) with ⟨fw, fh⟩
    have hset : (funBackend f).setH ((funBackend f).setW s w) hgt = (w, hgt) := by
      simp [funBackend]
    have htr := tryReads3_funBackend f w hgt (w, hgt) fw fh hfc
    by_cases hm : fw = w ∧ fh = hgt
    · have hEq : f (w, hgt) = (w, hgt) := by rw [hfc, hm.1, hm.2]
      rw [List.find?_cons_of_pos _ (by simp [hEq])]
      rw [if_pos hm] at htr
      simp [probeLoop, hset, htr]
    · have hNe : ¬f (w, hgt) = (w, hgt) := by rw [hfc]; simpa using hm
      rw [List.find?_cons_of_neg _ (by simp [hNe])]
      rw [if_neg hm] at htr
      simp [probeLoop, hset, htr, ih]

/-- `open` reports exactly the `isOpened()` result of the native
handle, whatever the probe did. -/
theorem openRaw_bool (b : CaptureBackend σ) (dev : ι → Bool × σ)
    (vs : VideoSource ι σ) :
    (VideoSource.openRaw b dev vs).2.1 = (dev vs.source).1 := by
  rcases h : dev vs.source with ⟨opened, s0⟩
  cases opened <;> simp [VideoSource.openRaw, h]

/-- After any `open()` call — successful or not — the internal handle
field is populated. -/
theorem openRaw_cap_isSome (b : CaptureBackend σ) (dev : ι → Bool × σ)
    (vs : VideoSource ι σ) :
    ((VideoSource.openRaw b dev vs).1.cap).isSome = true := by
  rcases h : dev vs.source with ⟨opened, s0⟩
  cases opened <;> simp [VideoSource.openRaw, h]

/-- The fake 1280x720-only driver confirms exactly the 1280x720 request. -/
theorem fFake_spec : ∀ c, fFake c = c ↔ c = (1280, 720) := by
  intro c
  by_cases hc : c = (1280, 720)
  · simp [fFake, hc]
  · simp [fFake, hc, Prod.ext_iff]

/-- Against a driver that confirms only 1280x720, the probe over the
code's candidate list accepts 1280x720. -/
theorem find_candidates_f720 (f : Nat × Nat → Nat × Nat)
    (hf : ∀ c, f c = c ↔ c = (1280, 720)) :
    candidates.find? (fun c => decide (f c = c)) = some (1280, 720) := by
  have hne : ∀ c : Nat × Nat, c ≠ (1280, 720) → ¬f c = c :=
    fun c hc h => hc ((hf c).mp h)
  have hpos : f (1280, 720) = (1280, 720) := (hf _).mpr rfl
  show List.find? _
    [(3840, 2160), (2560, 1440), (1920, 1080), (1600, 900),
     (1280, 720), (1024, 768), (800, 600), (640, 480)] = _
  rw [List.find?_cons_of_neg _ (by simp [hne (3840, 2160) (by decide)]),
      List.find?_cons_of_neg _ (by simp [hne (2560, 1440) (by decide)]),
      List.find?_cons_of_neg _ (by simp [hne (1920, 1080) (by decide)]),
      List.find?_cons_of_neg _ (by simp [hne (1600, 900) (by decide)]),
      List.find?_cons_of_pos _ (by simp [hpos])]

/-- A kept enumerator entry comes from a successful capability query
with the video-capture bit set, and its path component is the probed
path itself. -/
theorem deviceEntry_eq_some (query : String → QueryResult) (a d p : String)
    (h : deviceEntry query a = some (d, p)) :
    p = a ∧ ∃ caps card, query a = QueryResult.ok caps card
      ∧ caps &&& V4L2_CAP_VIDEO_CAPTURE ≠ 0 := by
  unfold deviceEntry at h
  split at h
  · exact absurd h (by simp)
  · exact absurd h (by simp)
  · rename_i caps card hq
    split at h
    · exact absurd h (by simp)
    · rename_i hcap
      split at h <;>
        (simp only [Option.some_inj, Prod.mk.injEq] at h
         exact ⟨h.2.symm, caps, card, hq, hcap⟩)

/-- A path whose capability query succeeds with the video-capture bit
set yields a kept entry whose path component is the path itself. -/
theorem deviceEntry_isSome_of (query : String → QueryResult) (a : String)
    (caps : Nat) (card : String) (hq : query a = QueryResult.ok caps card)
    (hcap : caps &&& V4L2_CAP_VIDEO_CAPTURE ≠ 0) :
    ∃ d, deviceEntry query a = some (d, a) := by
  by_cases hcard : card = ""
  · refine ⟨a, ?_⟩
    unfold deviceEntry
    rw [hq]
    show (if caps &&& V4L2_CAP_VIDEO_CAPTURE = 0 then none
      else if card = "" then some (a, a)
      else some (card ++ " (" ++ a ++ ")", a)) = some (a, a)
    rw [if_neg hcap, if_pos hcard]
  · refine ⟨card ++ " (" ++ a ++ ")", ?_⟩
    unfold deviceEntry
    rw [hq]
    show (if caps &&& V4L2_CAP_VIDEO_CAPTURE = 0 then none
      else if card = "" then some (a, a)
      else some (card ++ " (" ++ a ++ ")", a)) = some (card ++ " (" ++ a ++ ")", a)
    rw [if_neg hcap, if_neg hcard]

/-- Indexing with a default commutes with `map` when the mapping
function fixes the default. -/
theorem getD_map_fix (g : α → β) (d : α) (d2 : β) (hg : g d = d2)
    (l : List α) (r : Nat) :
    (l.map g).getD r d2 = g (l.getD r d) := by
  induction l generalizing r with
  | nil => rw [List.map_nil, List.getD_nil, List.getD_nil, hg]
  | cons a t ih =>
    cases r with
    | zero => rw [List.map_cons, List.getD_cons_zero, List.getD_cons_zero]
    | succ n =>
      rw [List.map_cons, List.getD_cons_succ, List.getD_cons_succ]
      exact ih n

/-- Reversing a 3-element list swaps index `k` with index `2 - k`. -/
theorem reverse_getD_of_length_three (l : List Nat) (hl : l.length = 3)
    (k : Nat) (hk : k < 3) :
    l.reverse.getD k 0 = l.getD (2 - k) 0 := by
  rcases l with _ | ⟨a, l⟩
  · simp at hl
  rcases l with _ | ⟨b, l⟩
  · simp at hl
  rcases l with _ | ⟨c, l⟩
  · simp at hl
  rcases l with _ | ⟨d, l⟩
  · interval_cases k <;> rfl
  · simp at hl

/-- An in-range `getD` lookup is a member of the list. -/
theorem getD_mem_of_lt (l : List α) (r : Nat) (d : α) (h : r < l.length) :
    l.getD r d ∈ l := by
  rw [List.getD_eq_getElem l d h]
  exact List.getElem_mem h

/- ## Claim theorems -/

/-- C1: resolution negotiation in `VideoSource.open()` tries the fixed
candidate list strictly from highest to lowest — the accepted
resolution is the *first* candidate of the list the driver confirms
(`List.find?`); per candidate at most `fuel` (= 3 in the code)
consecutive reads are attempted; against a driver that delivers
matching frames only at 1280x720 the negotiated resolution is
1280x720, not a higher candidate; and `open()` reports exactly the
native `isOpened()` result, so it still succeeds when no candidate
matched. -/
theorem resolution_negotiation_highest_first (f : Nat × Nat → Nat × Nat)
    (s0 : Nat × Nat)
    (hf : ∀ c, f c = c ↔ c = (1280, 720)) :
    (∀ (g : Nat × Nat → Nat × Nat) (s : Nat × Nat) (cs : List (Nat × Nat)),
        (probeLoop (funBackend g) cs s).2 = cs.find? fun c => decide (g c = c))
    ∧ (VideoSource.openRaw (funBackend f) (fun _ : Int => (true, s0))
        (VideoSource.init 0)).2.2 = some (1280, 720)
    ∧ (VideoSource.openRaw (funBackend f) (fun _ : Int => (true, s0))
        (VideoSource.init 0)).2.1 = true
    ∧ (∀ (τ : Type) (b : CaptureBackend τ) (w hgt fuel : Nat) (s : τ),
        (tryReads b w hgt fuel s).2.2 ≤ fuel) := by
  refine ⟨fun g s cs => probeLoop_funBackend g cs s, ?_, ?_, ?_⟩
  · simp [VideoSource.openRaw, VideoSource.init, probeLoop_funBackend,
      find_candidates_f720 f hf]
  · rw [openRaw_bool]
  · exact fun τ b w hgt fuel s => tryReads_count_le b w hgt fuel s

/-- Witness for C1 at the concrete fake driver `fFake` and initial
device state (0, 0). -/
theorem resolution_negotiation_highest_first_witness :
    (∀ c, fFake c = c ↔ c = (1280, 720))
    ∧ ((∀ (g : Nat × Nat → Nat × Nat) (s : Nat × Nat) (cs : List (Nat × Nat)),
        (probeLoop (funBackend g) cs s).2 = cs.find? fun c => decide (g c = c))
    ∧ (VideoSource.openRaw (funBackend fFake) (fun _ : Int => (true, (0, 0)))
        (VideoSource.init 0)).2.2 = some (1280, 720)
    ∧ (VideoSource.openRaw (funBackend fFake) (fun _ : Int => (true, (0, 0)))
        (VideoSource.init 0)).2.1 = true
    ∧ (∀ (τ : Type) (b : CaptureBackend τ) (w hgt fuel : Nat) (s : τ),
        (tryReads b w hgt fuel s).2.2 ≤ fuel)) :=
  ⟨fFake_spec, resolution_negotiation_highest_first fFake (0, 0) fFake_spec⟩

/-- C2: for every source value, `VideoSource.open()` with the capture
backend present returns normally with a boolean (no exception on
ordinary failure to open — the boolean is exactly the native
`isOpened()` result), and `release()` afterwards is a total, safe
operation leaving the handle field empty, whether `open()` returned
true or false. -/
theorem open_returns_bool_release_safe (b : CaptureBackend σ)
    (dev : ι → Bool × σ) (vs : VideoSource ι σ) :
    VideoSource.open true b dev vs = Except.ok (VideoSource.openRaw b dev vs)
    ∧ (VideoSource.openRaw b dev vs).2.1 = (dev vs.source).1
    ∧ ((VideoSource.openRaw b dev vs).1.release).cap = none
    ∧ vs.release.cap = none :=
  ⟨rfl, openRaw_bool b dev vs, rfl, rfl⟩

/-- C3 counterexample: a source opened with `open()` returning `False`
(device index -99, `isOpened()` false) has "never been opened" and is
"before a successful open()", yet `read()` does not raise the
invalid-state error: `self._cap` was populated by the failed open, so
`read()` goes down the native-read path and returns normally. -/
theorem read_after_failed_open_does_not_raise :
    exceptIsError (VideoSource.read trivialBackend
      ((VideoSource.openRaw trivialBackend (fun _ : Int => (false, ()))
        (VideoSource.init (-99 : Int))).1)) = false := rfl

/-- C4: at the failing inputs the enumerator returns the *empty* list:
with a glob that finds zero paths the result is `[]`, and with a
single device reporting a metadata-only capability set (bit 0x00800000
but not `V4L2_CAP_VIDEO_CAPTURE`) filtering also empties the result —
`enumerate_video_devices` has no unfiltered fallback and no hard-coded
fallback pair, contradicting the claim and the function's own
docstring ("Always returns a non-empty list with fallback entries"). -/
theorem enumerate_no_fallback_empty :
    enumerate_video_devices true [] (fun _ => QueryResult.openFail)
      = Except.ok []
    ∧ enumerate_video_devices true ["/dev/video0"]
        (fun _ => QueryResult.ok 0x00800000 "metadata-cam")
      = Except.ok [] := by
  constructor
  · simp [enumerate_video_devices]
  · simp [enumerate_video_devices, List.mergeSort_singleton, deviceEntry,
      V4L2_CAP_VIDEO_CAPTURE]

/-- C5 counterexample: a globbed device path whose capability query
fails (the `VIDIOC_QUERYCAP` ioctl raises) is dropped from the result
— the enumerator fails closed, not open, so the claim that such a
device is kept is false. -/
theorem query_failure_drops_device :
    enumerate_video_devices true ["/dev/video0"] (fun _ => QueryResult.ioctlFail)
      = Except.ok [] := by
  simp [enumerate_video_devices, List.mergeSort_singleton, deviceEntry]

/-- C5 (amended): the enumerator keeps exactly the globbed paths whose
capability query succeeds and reports the video-capture capability;
a path whose device node cannot be opened or whose capability ioctl
fails is skipped (fail closed), exactly like a device reporting no
video-capture capability. -/
theorem enumerate_membership (globResult : List String)
    (query : String → QueryResult) (p : String) :
    ∃ l, enumerate_video_devices true globResult query = Except.ok l
      ∧ ((∃ d, (d, p) ∈ l) ↔ p ∈ globResult
          ∧ ∃ caps card, query p = QueryResult.ok caps card
              ∧ caps &&& V4L2_CAP_VIDEO_CAPTURE ≠ 0) := by
  refine ⟨_, rfl, ?_⟩
  constructor
  · rintro ⟨d, hd⟩
    rcases List.mem_filterMap.mp hd with ⟨a, ha, hde⟩
    rcases deviceEntry_eq_some query a d p hde with ⟨hpa, caps, card, hq, hcap⟩
    subst hpa
    exact ⟨List.mem_mergeSort.mp ha, caps, card, hq, hcap⟩
  · rintro ⟨hmem, caps, card, hq, hcap⟩
    rcases deviceEntry_isSome_of query p caps card hq hcap with ⟨d, hde⟩
    exact ⟨d, List.mem_filterMap.mpr ⟨p, List.mem_mergeSort.mpr hmem, hde⟩⟩

/-- C6: `send_text` on a sender whose connection is absent (never
opened, opened unsuccessfully, or dry mode) returns normally (the
model is total because every native call in the method is wrapped in
`try/except`), transmits nothing, and emits exactly one log record
whose message contains the given text. -/
theorem send_text_closed_logs_text (s : SerialSender κ) (text : String)
    (wOk : Bool) (h : s.conn = none) :
    s.send_text text wOk
      = (s, [LogEntry.info ("SerialSender (dry): " ++ text)], none)
    ∧ ∃ pre suf, "SerialSender (dry): " ++ text = pre ++ text ++ suf := by
  refine ⟨?_, "SerialSender (dry): ", "", ?_⟩
  · unfold SerialSender.send_text
    rw [h]
  · simp

/-- Witness for C6: a never-opened dry-mode sender and the text
"hello". -/
theorem send_text_closed_logs_text_witness :
    ((SerialSender.init "/dev/ttyUSB0" 9600 false : SerialSender Unit).conn = none)
    ∧ ((SerialSender.init "/dev/ttyUSB0" 9600 false : SerialSender Unit).send_text "hello" true
        = (SerialSender.init "/dev/ttyUSB0" 9600 false,
           [LogEntry.info ("SerialSender (dry): " ++ "hello")], none)
      ∧ ∃ pre suf, "SerialSender (dry): " ++ "hello" = pre ++ "hello" ++ suf) :=
  ⟨rfl, send_text_closed_logs_text (SerialSender.init "/dev/ttyUSB0" 9600 false)
    "hello" true rfl⟩

/-- C7: `close()` does not transition the sender to CLOSED.  After a
successful open followed by `close()`, the connection field is still
set; a subsequent `send_text` therefore takes the write path — it
either logs a write failure (when the native write to the closed port
raises) or even transmits — and never emits the dry-mode log that
CLOSED state would produce; a second `close()` still finds the
connection set (though, as modelled, it produces no error). -/
theorem close_leaves_connection_set :
    (senderAfterOpen.close).1.conn = some ()
    ∧ ((senderAfterOpen.close).1.send_text "hi" false).2.1
        = [LogEntry.exc "Failed to write to serial device"]
    ∧ ((senderAfterOpen.close).1.send_text "hi" true).2.2 = some "hi"
    ∧ (((senderAfterOpen.close).1.close).1.conn = some ()) :=
  ⟨rfl, rfl, rfl, rfl⟩

/-- C8: `SerialSender.open` returns normally on every path (the model
is total): with no pyserial backend it logs and returns with the
sender unchanged — dry mode, in which subsequent sends are logged, not
transmitted; with a backend whose constructor raises, the exception is
caught and logged, the connection stays absent (CLOSED), and a
subsequent send is dry-logged. -/
theorem serial_open_never_raises (dev : String) (baud : Nat)
    (connect : Option κ) (text : String) (wOk : Bool) :
    SerialSender.open connect (SerialSender.init dev baud false : SerialSender κ)
      = (SerialSender.init dev baud false,
         [LogEntry.info "pyserial not available; SerialSender will log messages"])
    ∧ SerialSender.open none (SerialSender.init dev baud true : SerialSender κ)
      = (SerialSender.init dev baud true,
         [LogEntry.exc ("Failed to open serial device " ++ dev)])
    ∧ ((SerialSender.open none
          (SerialSender.init dev baud true : SerialSender κ)).1.send_text text wOk).2.1
      = [LogEntry.info ("SerialSender (dry): " ++ text)] :=
  ⟨rfl, rfl, rfl⟩

/-- C9 counterexample: the widget is running and the new source fails
to open — `open()` returns `False` without raising (device reports
not-opened) — yet after `set_source` the widget is running: polling
resumes on the dead source instead of being left stopped. -/
theorem set_source_open_false_still_running :
    (VideoWidget.set_source true trivialBackend (fun _ : Int => (false, ()))
      widgetRunning (VideoSource.init 1)).1.running = true := rfl

/-- C9 (amended): `set_source` always releases the old wrapper before
adopting the new one — whatever the outcome of the reopen, the old
wrapper's handle is gone, so the widget holds at most one live capture
handle; a swap on a stopped widget leaves it stopped holding the new
source; when the reopen *raises* (capture backend absent) the widget
is left stopped; but when `open()` merely returns `False` without
raising, polling resumes anyway. -/
theorem set_source_releases_old_always (cv2P : Bool) (b : CaptureBackend σ)
    (dev : ι → Bool × σ) (w : VideoWidget ι σ) (ns os : VideoSource ι σ) :
    (VideoWidget.set_source cv2P b dev w ns).2.cap = none
    ∧ (VideoWidget.set_source cv2P b dev
        { source := os, running := false } ns).1
        = { source := ns, running := false }
    ∧ (VideoWidget.set_source false b dev
        { source := os, running := true } ns).1.running = false
    ∧ (VideoWidget.set_source true b dev
        { source := os, running := true } ns).1.running = true := by
  refine ⟨?_, ?_, ?_, ?_⟩
  · by_cases hr : w.running
    · cases cv2P <;>
        simp [VideoWidget.set_source, hr, VideoSource.open, VideoSource.release]
    · simp [VideoWidget.set_source, hr, VideoSource.release]
  · simp [VideoWidget.set_source]
  · simp [VideoWidget.set_source, VideoSource.open]
  · simp [VideoWidget.set_source, VideoSource.open]

/-- C10: `bgr_to_photoimage` is a pure channel reorder.  With the
image libraries present it returns a buffer of the same height, with
every row of the same width, and for every 3-channel pixel the output
channel `k` equals the input channel `2 - k` (blue-green-red becomes
red-green-blue); out-of-range indices yield the shared default on both
sides, so no resizing and no other transformation occurs. -/
theorem bgr_channel_reorder (frame : List (List (List Nat)))
    (hch : ∀ row ∈ frame, ∀ px ∈ row, px.length = 3) :
    ∃ out, bgr_to_photoimage true true frame = Except.ok out
      ∧ out.length = frame.length
      ∧ (∀ r : Nat, (out.getD r []).length = (frame.getD r []).length)
      ∧ ∀ r c k : Nat, k < 3 →
          ((out.getD r []).getD c []).getD k 0
            = ((frame.getD r []).getD c []).getD (2 - k) 0 := by
  refine ⟨_, rfl, by simp, ?_, ?_⟩
  · intro r
    rw [getD_map_fix (fun row => row.map List.reverse) [] [] rfl]
    simp
  · intro r c k hk
    rw [getD_map_fix (fun row => row.map List.reverse) [] [] rfl]
    show (((frame.getD r []).map List.reverse).getD c []).getD k 0 = _
    rw [getD_map_fix List.reverse [] [] rfl]
    by_cases hr : r < frame.length
    · by_cases hc : c < (frame.getD r []).length
      · have hrow : frame.getD r [] ∈ frame := getD_mem_of_lt _ _ _ hr
        have hpx : (frame.getD r []).getD c [] ∈ frame.getD r [] :=
          getD_mem_of_lt _ _ _ hc
        exact reverse_getD_of_length_three _ (hch _ hrow _ hpx) k hk
      · rw [List.getD_eq_default _ _ (le_of_not_lt hc)]
        rfl
    · rw [List.getD_eq_default _ _ (le_of_not_lt hr)]
      simp [List.getD_nil]

/-- Witness for C10 at a concrete 1x1 blue-green-red pixel buffer. -/
theorem bgr_channel_reorder_witness :
    (∀ row ∈ [[[10, 20, 30]]], ∀ px ∈ row, List.length px = 3)
    ∧ (∃ out, bgr_to_photoimage true true [[[10, 20, 30]]] = Except.ok out
      ∧ out.length = List.length [[[10, 20, 30]]]
      ∧ (∀ r : Nat, (out.getD r []).length
          = (List.getD [[[10, 20, 30]]] r []).length)
      ∧ ∀ r c k : Nat, k < 3 →
          ((out.getD r []).getD c []).getD k 0
            = ((List.getD [[[10, 20, 30]]] r []).getD c []).getD (2 - k) 0) :=
  ⟨by decide, bgr_channel_reorder [[[10, 20, 30]]] (by decide)⟩

/-- C3 (amended): `read()` raises the invalid-state `RuntimeError`
exactly when the internal handle is absent — on a source on which
`open()` was never called, or after `release()` with no subsequent
`open()` call; after any `open()` call, even one that returned
`False`, `read()` returns normally; and `release()` is idempotent
(and never raises, being modelled total). -/
theorem read_invalid_state_iff_handle_absent (b : CaptureBackend σ)
    (dev : ι → Bool × σ) (vs : VideoSource ι σ) (src : ι) :
    exceptIsError (VideoSource.read b (VideoSource.init src : VideoSource ι σ)) = true
    ∧ exceptIsError (VideoSource.read b vs.release) = true
    ∧ vs.release.release = vs.release
    ∧ exceptIsError (VideoSource.read b (VideoSource.openRaw b dev vs).1) = false := by
  refine ⟨rfl, rfl, rfl, ?_⟩
  rcases h : dev vs.source with ⟨opened, s0⟩
  cases opened <;>
    simp [VideoSource.openRaw, VideoSource.read, exceptIsError, h]
